import Mathlib

/-!
Shallow embedding of the goline command-line prompting library
(src/goline.go) and a verification of its specified behavior.

Conventions of the embedding:
  - Go strings are Lean `String`s; where Go byte-level behavior matters
    (byte indices, byte slicing, indexing a string) we work with the
    explicit UTF-8 byte list of the string.
  - printing is modelled by returning the printed text; a sequence of
    print calls is modelled as a `List String` or their concatenation.
  - Go panics and error returns are modelled with `Except`/explicit
    result structures carrying an error kind.
  - machine integers are `Nat`/`Int` with explicit bounds (`2 ^ 64` etc.);
    Go's `/` on int is truncated division, written `Int.tdiv` here.

Parts of the repository that goline.go calls but that are not under
src/ (the file holding `Question`'s methods, `panicUnrecoverable`,
`StringSet`) are modelled from the spec; each such definition carries a
doc comment starting with `Modelled from the spec:`.
-/

set_option autoImplicit false

/-- Go `unicode.IsSpace`: the White_Space code points. -/
def goIsSpace (c : Char) : Bool :=
  let n := c.toNat
  n == 0x20 || (decide (0x9 ≤ n) && decide (n ≤ 0xD)) || n == 0x85 || n == 0xA0 ||
  n == 0x1680 || (decide (0x2000 ≤ n) && decide (n ≤ 0x200A)) || n == 0x2028 ||
  n == 0x2029 || n == 0x202F || n == 0x205F || n == 0x3000

/-- Go `strings.TrimRightFunc(s, unicode.IsSpace)`. -/
def goTrimRight (s : String) : String :=
  String.mk ((s.toList.reverse.dropWhile goIsSpace).reverse)

/-- Model of `Say(msg)` (src/goline.go lines 69-74): prints `msg` as-is when its last
rune is white space, otherwise prints `msg` followed by a newline. The model
returns the printed text. On the empty string `DecodeLastRuneInString`
yields the replacement rune, which is not white space, so a newline is
printed. -/
def Say (msg : String) : String :=
  match msg.toList.getLast? with
  | some c => if goIsSpace c then msg else msg ++ "\n"
  | none => msg ++ "\n"

/-- Model of `SayTrimmed(msg)` (src/goline.go lines 76-78). -/
def SayTrimmed (msg : String) : String :=
  Say (goTrimRight msg)

/-- UTF-8 encoding of one character, as the list of byte values. -/
def charBytes (c : Char) : List Nat :=
  let n := c.toNat
  if n < 0x80 then [n]
  else if n < 0x800 then
    [0xC0 ||| (n >>> 6), 0x80 ||| (n &&& 0x3F)]
  else if n < 0x10000 then
    [0xE0 ||| (n >>> 12), 0x80 ||| ((n >>> 6) &&& 0x3F), 0x80 ||| (n &&& 0x3F)]
  else
    [0xF0 ||| (n >>> 18), 0x80 ||| ((n >>> 12) &&& 0x3F),
     0x80 ||| ((n >>> 6) &&& 0x3F), 0x80 ||| (n &&& 0x3F)]

/-- The UTF-8 bytes of a string (what a Go `string` stores). -/
def utf8Bytes (s : String) : List Nat :=
  (s.toList.map charBytes).flatten

/-- Go `len(s)`: the byte length of a string. -/
def goLen (s : String) : Nat :=
  s.utf8ByteSize

/-- The backwards scan performed by `strings.LastIndexFunc` inside
`stringSuffixIndexFunc` (src/goline.go lines 46-58), together with the
`hasSuffix` flag that the closure threads across calls. Characters are
visited from the end of the string (the input list is the reversed
character list); `pos` is the byte offset just past the current character.
Returns the pair of the `LastIndexFunc` result (byte index of the rune at
which the scan stopped, `-1` if it never stopped) and the final `hasSuffix`
flag. -/
def suffixScan (f : Char → Bool) : List Char → Nat → Bool → Int × Bool
  | [], _, hs => (-1, hs)
  | c :: rest, pos, hs =>
    let done := !(f c)
    let hs' := if !hs then !done else hs
    let pos' := pos - c.utf8Size
    if done then ((pos' : Int), hs') else suffixScan f rest pos' hs'

/-- Model of `stringSuffixIndexFunc(s, f)` (src/goline.go lines 46-58): runs the
`LastIndexFunc` scan, then increments the stop index by one byte and
returns `-1` when no character of the scan satisfied `f`. -/
def stringSuffixIndexFunc (s : String) (f : Char → Bool) : Int :=
  let r := suffixScan f s.toList.reverse s.utf8ByteSize false
  let i := r.1 + 1
  if !r.2 then -1 else i

/-- Model of `stringSuffixFunc(s, f)` (src/goline.go lines 62-67): the byte slice
`s[i:]` for the index produced by `stringSuffixIndexFunc`, or the empty
slice when that index is `-1`. Returned as a list of bytes because the Go
slice need not be valid UTF-8. -/
def stringSuffixFunc (s : String) (f : Char → Bool) : List Nat :=
  let i := stringSuffixIndexFunc s f
  if 0 ≤ i then (utf8Bytes s).drop i.toNat else []

/-- The behavior stated by the claim and by the function's own doc comment
(src/goline.go lines 44-45): the byte index of the start of the longest
terminal substring of `s` all of whose runes satisfy `f`, or `-1` when `s`
has no non-empty suffix all of whose runes satisfy `f`. -/
def suffixIndexSpec (s : String) (f : Char → Bool) : Int :=
  let l := s.toList
  let k := (l.reverse.takeWhile f).length
  if k == 0 then -1
  else (((l.take (l.length - k)).map Char.utf8Size).sum : Int)

/-- The kinds of failure that can arise in the embedded code. `optionType`
and the `Dest` check errors stand for the descriptive `os.Error` values the
source builds; `indexOutOfRange` and `nilDeref` stand for Go runtime
panics. -/
inductive ErrKind
  | optionType
  | indexOutOfRange
  | notPtrDest
  | sliceDest
  | readFail
  | coerceFail
  | constraintFail
  | narrowFail
  | nilDeref
deriving DecidableEq

deriving instance DecidableEq for Except

/-- The `ListMode` enumeration (src/goline.go lines 107-114). -/
inductive ListMode
  | ColumnsAcross
  | ColumnsDown
  | Inline
  | Rows
deriving DecidableEq

/-- The dynamic type of the `option interface{}` argument of `List`:
Go `nil`, an `int`, a `string`, or a value of any other type. -/
inductive ListOpt
  | nilOpt
  | intOpt (n : Int)
  | strOpt (s : String)
  | otherOpt
deriving DecidableEq

/-- The width computation of `List` (src/goline.go lines 147-152):
the maximum byte length of the items. -/
def maxWidth (strs : List String) : Nat :=
  strs.foldl (fun w s => if goLen s > w then goLen s else w) 0

/-- The column count `ncols := (wrap + 1) / (width + 1)` (src/goline.go line 155), with Go's
truncated integer division. -/
def ncolsVal (wrap : Int) (width : Nat) : Int :=
  Int.tdiv (wrap + 1) ((width : Int) + 1)

/-- Model of the format `fmt.Sprintf` applies per item: left-justify `s`, padding with spaces
up to `width` (src/goline.go lines 167-170). -/
def padTo (w : Nat) (s : String) : String :=
  s ++ String.mk (List.replicate (w - goLen s) ' ')

/-- The in-place update `strs[n-1] = join + strs[n-1]` of the last element
(src/goline.go line 213), as a functional update. -/
def updateLast (f : String → String) : List String → List String
  | [] => []
  | [x] => [f x]
  | x :: y :: rest => x :: updateLast f (y :: rest)

/-- The Rows layout (src/goline.go lines 215-218, also lines 158-161):
each item printed on its own line, right-trimmed. The model returns the
concatenation of the printed text. -/
def rowsOut (strs : List String) : String :=
  String.join (strs.map SayTrimmed)

/-- Model of `List(items, mode, option)` (src/goline.go lines 116-222), for items
that are already strings (the `makeStringer` conversion of string/Stringer
items is the identity on their rendered text). Returns the concatenation of
all printed text, or the error/panic that aborts the call. -/
def goList (strs : List String) (mode : ListMode) (opt : ListOpt) :
    Except ErrKind String :=
  match mode with
  | .ColumnsAcross | .ColumnsDown =>
    -- the two columns modes share their setup (fallthrough in the source)
    match (match opt with
           | .nilOpt => Except.ok (80 : Int)
           | .intOpt w => Except.ok w
           | _ => Except.error ErrKind.optionType) with
    | .error e => .error e
    | .ok wrap =>
      let width := maxWidth strs
      let n := strs.length
      let ncols := ncolsVal wrap width
      if ncols ≤ 1 then
        -- just print rows if no more than 1 column fits
        .ok (rowsOut strs)
      else
        let ncN := ncols.toNat
        let nrN := (Int.tdiv ((n : Int) + ncols - 1) ncols).toNat
        let padded := strs.map (padTo width)
        match mode with
        | .ColumnsAcross =>
          -- for i := 0; i < n; i += ncols { print strs[i:min(i+ncols,n)] }
          .ok (String.join ((List.range nrN).map (fun r =>
                SayTrimmed (String.intercalate " "
                  ((padded.drop (r * ncN)).take ncN)))))
        | _ =>
          -- row i collects strs[j*nrows+i] for j < ncols, stopping at n
          .ok (String.join ((List.range nrN).map (fun i =>
                SayTrimmed (String.intercalate " "
                  (((List.range ncN).takeWhile (fun j => decide (j * nrN + i < n))).map
                    (fun j => padded.getD (j * nrN + i) ""))))))
  | .Inline =>
    let n := strs.length
    if n == 1 then .ok (SayTrimmed (strs.getD 0 ""))
    else
      match (match opt with
             | .nilOpt => Except.ok " or "
             | .strOpt s => Except.ok s
             | _ => Except.error ErrKind.optionType) with
      | .error e => .error e
      | .ok join =>
        if n == 2 then
          -- Say(strings.Join([]string{strs[n-2], join, strs[n-2], "\n"}, ""))
          .ok (Say (strs.getD (n - 2) "" ++ join ++ strs.getD (n - 2) "" ++ "\n"))
        else
          match strs with
          | [] => .error ErrKind.indexOutOfRange  -- strs[n-1] with n-1 = -1
          | _ :: _ =>
            .ok (SayTrimmed (String.intercalate ", "
                  (updateLast (fun s => join ++ s) strs)))
  | .Rows => .ok (rowsOut strs)

/-- The `Type` enumeration of the source (the answer kind decided from the destination):
the closed enumeration behind `Uint`, `Int`, `Float`, `String`
(src/goline.go lines 251-281). Its zero value is `Uint`. -/
inductive GoType
  | Uint
  | Int
  | Float
  | String
deriving DecidableEq

/-- The destination argument of `Ask`, classified the way the source
classifies it: by `reflect` kind (pointer/slice/other) and, for pointers,
by the pointee scalar kind of the type switch (src/goline.go lines
243-281). `bits` is the pointee's bit width. `ptrOther` is a pointer to any
other type (the `default` arm, which builds an error and discards it,
leaving `t` at its zero value). -/
inductive Dest
  | notPtr
  | slice
  | ptrUint (bits : Nat)
  | ptrInt (bits : Nat)
  | ptrFloat (bits : Nat)
  | ptrString
  | ptrOther
deriving DecidableEq

/-- The type-switch of `Ask` on the destination (src/goline.go lines
251-281). For `ptrOther`, `fmt.Errorf` is called but its result dropped, so
`t` keeps the zero value `Uint`. -/
def inferType : Dest → GoType
  | .ptrUint _ => .Uint
  | .ptrInt _ => .Int
  | .ptrFloat _ => .Float
  | .ptrString => .String
  | _ => .Uint

/-- The wide coerced value: exactly one of a 64-bit unsigned integer, a
64-bit signed integer, a float, or a text string. Float answers keep their
token (no floating-point semantics are needed by any claim). -/
inductive CoercedValue
  | uintV (n : Nat)
  | intV (z : Int)
  | floatV (tok : String)
  | strV (s : String)
deriving DecidableEq

/-- ASCII decimal digit test. -/
def isDigit (c : Char) : Bool :=
  decide (48 ≤ c.toNat) && decide (c.toNat ≤ 57)

/-- The numeric value of a digit string. -/
def digitsVal (l : List Char) : Nat :=
  l.foldl (fun a c => a * 10 + (c.toNat - 48)) 0

/-- Modelled from the spec: base-10 unsigned parse of the wide (64-bit)
type, as `strconv.Atoui64` behaves — digits only, failing on malformed
text or overflow (spec section 4.1). The file holding the coercion code is
not under src/. -/
def parseUintTok (s : String) : Option Nat :=
  let l := s.toList
  if l.isEmpty then none
  else if l.all isDigit then
    let v := digitsVal l
    if v < 2 ^ 64 then some v else none
  else none

/-- Modelled from the spec: base-10 signed parse of the wide (64-bit) type,
as `strconv.Atoi64` behaves — optional sign, then digits, failing on
malformed text or overflow (spec section 4.1). -/
def parseIntTok (s : String) : Option Int :=
  let signed : Bool × List Char :=
    match s.toList with
    | '-' :: rest => (true, rest)
    | '+' :: rest => (false, rest)
    | l => (false, l)
  let neg := signed.1
  let l := signed.2
  if l.isEmpty then none
  else if l.all isDigit then
    let v := digitsVal l
    if neg then
      if v ≤ 2 ^ 63 then some (-(v : Int)) else none
    else
      if v < 2 ^ 63 then some (v : Int) else none
  else none

/-- Modelled from the spec: syntactic check for a float token — optional
leading sign, ASCII digits, at most a single decimal point, at least one
digit (spec section 4.1). The parsed value is never consumed by a claim, so
the coerced float keeps its token. -/
def isFloatTok (s : String) : Bool :=
  let l :=
    match s.toList with
    | '+' :: rest => rest
    | '-' :: rest => rest
    | l => l
  !l.isEmpty && decide (l.count '.' ≤ 1) &&
    l.all (fun c => isDigit c || c == '.') && l.any isDigit

/-- Modelled from the spec: `coerce(token, tag)` — parse the token as the
wide representation of the tag, or fail with a coercion error; for text the
value is the token itself (spec section 4.1). -/
def coerce (tok : String) (t : GoType) : Except ErrKind CoercedValue :=
  match t with
  | .Uint =>
    match parseUintTok tok with
    | some n => .ok (.uintV n)
    | none => .error .coerceFail
  | .Int =>
    match parseIntTok tok with
    | some z => .ok (.intV z)
    | none => .error .coerceFail
  | .Float => if isFloatTok tok then .ok (.floatV tok) else .error .coerceFail
  | .String => .ok (.strV tok)

/-- Modelled from the spec: the `Question` record built by `newQuestion`
and mutated by the caller's configuration callback (spec section 3 and
4.3; the file holding it is not under src/). `hasPanic` records whether a
failure-notification callback (`q.Panic`) is installed; `val` is the last
successfully parsed coerced value (`q.val`); `onError` is
`q.Responses[AskOnError]`. -/
structure Question where
  qtype : GoType
  question : String := ""
  Default : Option String := none
  FirstAnswer : Option String := none
  memb : Option (List String) := none
  onError : Option String := none
  hasPanic : Bool := false
  val : Option CoercedValue := none
deriving DecidableEq

/-- Model of `newQuestion(t)`: a fresh question of the given answer type. -/
def newQuestion (t : GoType) : Question :=
  { qtype := t }

/-- Modelled from the spec: `parse(rawInput)` — substitute the default
token for an empty response, coerce per the type tag, then validate the
token against the membership constraint set, with distinct errors for
coercion failure and constraint rejection (spec sections 4.2 and 4.3).
On success the question's `val` holds the coerced value. -/
def parse (q : Question) (raw : String) : Except ErrKind Question :=
  let tok :=
    if raw == "" then
      match q.Default with
      | some d => d
      | none => raw
    else raw
  match coerce tok q.qtype with
  | .error e => .error e
  | .ok v =>
    match q.memb with
    | none => .ok { q with val := some v }
    | some set =>
      if set.contains tok then .ok { q with val := some v }
      else .error .constraintFail

/-- Modelled from the spec: `tryFirstAnswer()` — when a first-answer token
was configured, coerce and validate it exactly as a normal response; a
failure is reported to the engine, which silently falls through to the
interactive loop (spec section 4.3). -/
def tryFirstAnswer (q : Question) : Except ErrKind Question :=
  match q.FirstAnswer with
  | none => .ok q
  | some fa => parse q fa

/-- Modelled from the spec: `setDest(destination)` — narrow the last parsed
wide value into the destination's scalar kind, failing with a narrowing
error when the value does not fit the destination's bit width or when the
kinds mismatch (spec section 4.1). Returns the value written. -/
def setDest (q : Question) (d : Dest) : Except ErrKind CoercedValue :=
  match q.val, d with
  | some (.uintV n), .ptrUint bits =>
    if n < 2 ^ bits then .ok (.uintV n) else .error .narrowFail
  | some (.intV z), .ptrInt bits =>
    if -(2 : Int) ^ (bits - 1) ≤ z ∧ z < 2 ^ (bits - 1) then .ok (.intV z)
    else .error .narrowFail
  | some (.floatV t), .ptrFloat _ => .ok (.floatV t)
  | some (.strV s), .ptrString => .ok (.strV s)
  | _, _ => .error .narrowFail

/-- Modelled from the spec: `defaultString(tail)` — the default-value
annotation rendered before the prompt's trailing whitespace, empty when no
default is set (spec section 4.3). -/
def defaultString (q : Question) (tl : String) : String :=
  match q.Default with
  | none => ""
  | some d => "|" ++ d ++ "|" ++ tl

/-- The call `stringSuffixFunc(prompt, unicode.IsSpace)` as `Ask` uses it
(src/goline.go line 303), rendered at the character level: the maximal
white-space character suffix. This agrees with the byte-level
`stringSuffixFunc` whenever the rune before the suffix is a single-byte
rune (the divergence at a multi-byte rune is the subject of the
`stringSuffixIndexFunc` claim). -/
def suffixSpace (s : String) : String :=
  String.mk ((s.toList.reverse.takeWhile goIsSpace).reverse)

/-- Modelled from the spec: the human-readable message of each error,
standing for the `String()` of the corresponding `os.Error` (spec
section 7). -/
def errText : ErrKind → String
  | .coerceFail => "could not parse value"
  | .constraintFail => "value not in the set of acceptable responses"
  | .narrowFail => "value does not fit the destination type"
  | .readFail => "read error"
  | .optionType => "List option of unacceptable type"
  | .indexOutOfRange => "index out of range"
  | .notPtrDest => "Ask requires a Ptr type"
  | .sliceDest => "Ask can not currently assign to slices"
  | .nilDeref => "invalid memory address or nil pointer dereference"

/-- One event delivered by `bufio.Reader.ReadLine`: a chunk of a line
(`more` is Go's `isPrefix`, true when the line continues in the next
chunk), or a read failure (including end of input). -/
inductive ReadEv
  | line (s : String) (more : Bool)
  | fail
deriving DecidableEq

/-- The inner read loop of `Ask` (src/goline.go lines 305-314): assemble
one full line from consecutive chunks; any read error (or exhausted input)
is a stream failure. Returns the line and the remaining input. -/
def readLine : List ReadEv → Except ErrKind (String × List ReadEv)
  | [] => .error .readFail
  | .fail :: _ => .error .readFail
  | .line s false :: rest => .ok (s, rest)
  | .line s true :: rest =>
    match readLine rest with
    | .error e => .error e
    | .ok (t, r) => .ok (s ++ t, r)

/-- Everything observable about one call of `Ask`:
`ret` is the `os.Error` the call returns (the source declares the named
return `e` and never assigns it, so every return site of the model sets
`none`); `crashed` is a panic escaping the call (crashing the program);
`written` is the value stored into the destination; `reported` lists the
errors handed to the `q.Panic` callback; `output` lists the printed
texts. -/
structure AskOut where
  ret : Option ErrKind
  crashed : Option ErrKind
  written : Option CoercedValue
  reported : List ErrKind
  output : List String
deriving DecidableEq

/-- The interactive loop of `Ask` (src/goline.go lines 296-330). `fuel`
bounds the number of iterations; every iteration either ends the call or
consumes at least one input event, so starting fuel at
`input.length + 1` realizes the unbounded source loop exactly (the
zero-fuel arm is unreachable from that start; see `askAux_fuel`).

Per iteration: compose and print the prompt with the default annotation;
read one line (a stream failure is fatal: `panicUnrecoverable` panics, the
deferred recover hands the error to `q.Panic` when installed, and `Ask`
returns with `e` still nil); parse the line (a coercion or constraint
failure is recoverable: `contFunc` prints the message and swaps the active
prompt for the configured on-error response, then the loop retries);
narrow into the destination (a narrowing failure takes the same
recoverable path, per spec sections 4.4 and 7 and the design notes);
on success the loop ends and the call returns. -/
def askAux (d : Dest) : Nat → Question → String → List ReadEv → AskOut
  | 0, _, _, _ =>
    { ret := none, crashed := none, written := none, reported := [], output := [] }
  | fuel + 1, q, prompt, input =>
    let tl := suffixSpace prompt
    let pOut := Say (prompt ++ defaultString q tl)
    match readLine input with
    | .error _ =>
      { ret := none, crashed := none, written := none,
        reported := if q.hasPanic then [ErrKind.readFail] else [],
        output := [pOut] }
    | .ok (resp, rest) =>
      match parse q resp with
      | .error e =>
        let prompt' :=
          match q.onError with
          | some t => t
          | none => prompt
        let r := askAux d fuel q prompt' rest
        { r with output := pOut :: ("Error: " ++ errText e ++ "\n") :: r.output }
      | .ok q' =>
        match setDest q' d with
        | .error e =>
          let prompt' :=
            match q'.onError with
            | some t => t
            | none => prompt
          let r := askAux d fuel q' prompt' rest
          { r with output := pOut :: ("Error: " ++ errText e ++ "\n") :: r.output }
        | .ok v =>
          { ret := none, crashed := none, written := some v, reported := [],
            output := [pOut] }

/-- The interactive loop of `Ask`, at its realizing fuel. -/
def askLoop (d : Dest) (q : Question) (prompt : String) (input : List ReadEv) :
    AskOut :=
  askAux d (input.length + 1) q prompt input

/-- Model of `Ask(dest, msg, config)` (src/goline.go lines 228-332) against the
given input events.

A non-pointer or slice destination makes `panicUnrecoverable` panic before
`q` is assigned; the deferred recover then evaluates `q.Panic` on the nil
`q`, so a nil-pointer runtime panic escapes the call. Otherwise the
question is built, configured, and the first-answer shortcut is attempted
before the interactive loop; a narrowing failure on that shortcut is
recoverable (no panic), clears `q.val` and returns with `e` still nil. -/
def Ask (d : Dest) (msg : String) (cfg : Option (Question → Question))
    (input : List ReadEv) : AskOut :=
  match d with
  | .notPtr =>
    { ret := none, crashed := some .nilDeref, written := none, reported := [],
      output := [] }
  | .slice =>
    { ret := none, crashed := some .nilDeref, written := none, reported := [],
      output := [] }
  | _ =>
    let q0 : Question := { newQuestion (inferType d) with question := msg }
    let q :=
      match cfg with
      | none => q0
      | some f => f q0
    match tryFirstAnswer q with
    | .ok q1 =>
      if q1.val.isSome then
        match setDest q1 d with
        | .ok v =>
          { ret := none, crashed := none, written := some v, reported := [],
            output := [] }
        | .error _ =>
          { ret := none, crashed := none, written := none, reported := [],
            output := [] }
      else askLoop d q1 msg input
    | .error _ => askLoop d q msg input

/-- The configuration callback `Confirm` passes to `Ask` (src/goline.go
lines 342-355): impose the default token and the yes/no membership set,
then apply the caller's configuration. -/
def confirmCfg (yes : Bool) (cfg : Option (Question → Question)) :
    Question → Question :=
  fun q =>
    let dflt := if yes then "yes" else "no"
    let q1 := { q with Default := some dflt,
                       memb := some ["yes", "y", "no", "n"] }
    match cfg with
    | none => q1
    | some f => f q1

/-- The observable outcome of `Confirm`: its boolean result, or the panic
that crashes it. -/
inductive ConfirmOut
  | val (b : Bool)
  | crash (k : ErrKind)
deriving DecidableEq

/-- Model of `Confirm(question, yes, config)` (src/goline.go lines 334-363) against
the given input events. After `Ask` returns, the local `err` holds the
error captured by the wrapped `q.Panic` callback — which exists only when
the configured question had a callback installed, so `err` is set exactly
when `Ask` reported an error through `q.Panic`. When `err` is nil,
`okstr[0]` reads the first byte of the result string, a runtime panic when
the string is still empty. -/
def Confirm (question : String) (yes : Bool)
    (cfg : Option (Question → Question)) (input : List ReadEv) : ConfirmOut :=
  let r := Ask .ptrString question (some (confirmCfg yes cfg)) input
  let err : Option ErrKind := r.reported.head?
  match r.crashed with
  | some k => .crash k
  | none =>
    match err with
    | some _ => .val false
    | none =>
      let okstr :=
        match r.written with
        | some (.strV s) => s
        | _ => ""
      match utf8Bytes okstr with
      | [] => .crash .indexOutOfRange
      | b :: _ => .val (b == 121)


/-- The claim's notion of an `option` type incompatible with the mode: a
non-int non-nil option in a columns mode, a non-string non-nil option in
Inline mode. -/
def optIncompatible : ListMode → ListOpt → Bool
  | .ColumnsAcross, .strOpt _ => true
  | .ColumnsAcross, .otherOpt => true
  | .ColumnsDown, .strOpt _ => true
  | .ColumnsDown, .otherOpt => true
  | .Inline, .intOpt _ => true
  | .Inline, .otherOpt => true
  | _, _ => false

theorem Say_newline (s : String) : Say (s ++ "\n") = s ++ "\n" := by
  unfold Say
  have h : (s ++ "\n").toList.getLast? = some '\n' := by
    have hd : (s ++ "\n").data = s.data ++ ['\n'] := by
      cases s
      rfl
    show (s ++ "\n").data.getLast? = some '\n'
    rw [hd, List.getLast?_concat]
  rw [h]
  simp [goIsSpace]

theorem updateLast_eq (f : String → String) :
    ∀ (l : List String), l ≠ [] →
      updateLast f l = l.dropLast ++ [f (l.getLast?.getD "")] := by
  intro l
  induction l with
  | nil => intro h; exact absurd rfl h
  | cons x xs ih =>
    intro _
    cases xs with
    | nil => simp [updateLast]
    | cons y ys =>
      simp only [updateLast]
      rw [ih (by simp)]
      simp

theorem readLine_consumes :
    ∀ (l : List ReadEv) (s : String) (r : List ReadEv),
      readLine l = .ok (s, r) → r.length < l.length := by
  intro l
  induction l with
  | nil => intro s r h; simp [readLine] at h
  | cons e rest ih =>
    intro s r h
    match e with
    | .fail => simp [readLine] at h
    | .line t false =>
      simp [readLine] at h
      obtain ⟨h1, h2⟩ := h
      subst h2
      simp
    | .line t true =>
      simp only [readLine] at h
      cases hr : readLine rest with
      | error e2 => rw [hr] at h; simp at h
      | ok pr =>
        obtain ⟨t2, r2⟩ := pr
        rw [hr] at h
        simp at h
        obtain ⟨h1, h2⟩ := h
        subst h2
        have := ih _ _ hr
        simp
        omega


theorem askAux_ret_crashed (d : Dest) :
    ∀ (fuel : Nat) (q : Question) (prompt : String) (input : List ReadEv),
      (askAux d fuel q prompt input).ret = none ∧
      (askAux d fuel q prompt input).crashed = none := by
  intro fuel
  induction fuel with
  | zero => intro q prompt input; simp [askAux]
  | succ n ih =>
    intro q prompt input
    simp only [askAux]
    split
    · simp
    · rename_i resp rest heq
      split
      · rename_i e hp
        have h := ih q (match q.onError with | some t => t | none => prompt) rest
        exact ⟨by simpa using h.1, by simpa using h.2⟩
      · rename_i q' hp
        split
        · rename_i e hs
          have h := ih q' (match q'.onError with | some t => t | none => prompt) rest
          exact ⟨by simpa using h.1, by simpa using h.2⟩
        · simp

theorem askAux_fuel (d : Dest) :
    ∀ (f1 f2 : Nat) (q : Question) (prompt : String) (input : List ReadEv),
      input.length < f1 → input.length < f2 →
      askAux d f1 q prompt input = askAux d f2 q prompt input := by
  intro f1
  induction f1 with
  | zero => intro f2 q prompt input h1 h2; omega
  | succ n ih =>
    intro f2 q prompt input h1 h2
    cases f2 with
    | zero => omega
    | succ m =>
      simp only [askAux]
      split
      · rfl
      · rename_i resp rest heq
        have hlt := readLine_consumes _ _ _ heq
        split
        · rename_i e hp
          rw [ih m q _ rest (by omega) (by omega)]
        · rename_i q' hp
          split
          · rename_i e hs
            rw [ih m q' _ rest (by omega) (by omega)]
          · rfl

theorem Ask_ret_none (d : Dest) (msg : String)
    (cfg : Option (Question → Question)) (input : List ReadEv) :
    (Ask d msg cfg input).ret = none := by
  cases d <;>
    simp only [Ask] <;>
    first
      | rfl
      | (split <;>
          first
            | exact (askAux_ret_crashed _ _ _ _ _).1
            | (split <;>
                first
                  | exact (askAux_ret_crashed _ _ _ _ _).1
                  | (split <;> rfl)))

theorem Ask_ptrString_crashed_none (msg : String)
    (cfg : Option (Question → Question)) (input : List ReadEv) :
    (Ask .ptrString msg cfg input).crashed = none := by
  simp only [Ask]
  split <;>
    first
      | exact (askAux_ret_crashed _ _ _ _ _).2
      | (split <;>
          first
            | exact (askAux_ret_crashed _ _ _ _ _).2
            | (split <;> rfl))

theorem strDataAppend (s t : String) : (s ++ t).data = s.data ++ t.data := by
  cases s
  cases t
  rfl

theorem lastChar_append (s t : String) (c : Char)
    (h : t.toList.getLast? = some c) :
    (s ++ t).toList.getLast? = some c := by
  show (s ++ t).data.getLast? = some c
  rw [strDataAppend]
  rw [List.getLast?_append_of_ne_nil]
  · exact h
  · intro he
    rw [show t.toList = t.data from rfl, he] at h
    simp at h

theorem Say_of_last_newline (s : String) (h : s.toList.getLast? = some '\n') :
    Say s = s := by
  unfold Say
  rw [h]
  simp [goIsSpace]

/-- Claim C10 (code_bug): `stringSuffixIndexFunc` advances the
`LastIndexFunc` stop index by a single byte instead of by the width of the
rune at which the scan stopped, contradicting its own doc comment. On
`"é "` (bytes 195, 169, 32) with the white-space predicate, the longest
all-white-space suffix `" "` starts at byte index 2, but the function
returns 1 — the middle of the two-byte rune `é` — and `stringSuffixFunc`
accordingly returns the invalid byte slice `[169, 32]`. -/
theorem c10_suffix_index_one_byte_bug :
    stringSuffixIndexFunc "é " goIsSpace = 1 ∧
    suffixIndexSpec "é " goIsSpace = 2 ∧
    stringSuffixFunc "é " goIsSpace = [169, 32] ∧
    utf8Bytes "é " = [195, 169, 32] ∧
    stringSuffixIndexFunc "a " goIsSpace = suffixIndexSpec "a " goIsSpace := by
  decide

/-- Claim C7 (confirmed): `List(["a","b","c","d","e"], ColumnsAcross, 5)`
computes width 1 and `ncols = (5+1)/(1+1) = 3` and prints the two rows
`a b c` and `d e`. -/
theorem c7_columns_across_example :
    maxWidth ["a", "b", "c", "d", "e"] = 1 ∧
    ncolsVal 5 (maxWidth ["a", "b", "c", "d", "e"]) = 3 ∧
    goList ["a", "b", "c", "d", "e"] .ColumnsAcross (.intOpt 5) =
      .ok "a b c\nd e\n" := by
  decide

/-- Claim C9 (confirmed): Inline mode with zero items and a valid option
(nil or a string) panics with an index-out-of-range — the read of
`strs[n-1]` with `n-1 = -1` — instead of printing nothing or failing with
a descriptive error. -/
theorem c9_inline_empty_panics (j : String) :
    goList [] .Inline .nilOpt = .error .indexOutOfRange ∧
    goList [] .Inline (.strOpt j) = .error .indexOutOfRange :=
  ⟨rfl, rfl⟩

/-- Claim C8 (confirmed): whenever `ncols = (wrap+1)/(width+1) <= 1`, both
columns modes print exactly what Rows mode prints on the same items. -/
theorem c8_columns_degrade_to_rows (strs : List String) (wrap : Int)
    (mode : ListMode) (hm : mode = .ColumnsAcross ∨ mode = .ColumnsDown)
    (hc : ncolsVal wrap (maxWidth strs) ≤ 1) :
    goList strs mode (.intOpt wrap) = goList strs .Rows (.intOpt wrap) := by
  rcases hm with h | h <;> subst h <;> simp only [goList] <;> rw [if_pos hc]

/-- Claim C8 witness: one column fits for items of width 3 at wrap 2, and
ColumnsAcross indeed prints the Rows layout. -/
theorem c8_columns_degrade_to_rows_witness :
    ncolsVal 2 (maxWidth ["aa", "bbb"]) ≤ 1 ∧
    goList ["aa", "bbb"] .ColumnsAcross (.intOpt 2) =
      goList ["aa", "bbb"] .Rows (.intOpt 2) :=
  ⟨by decide, c8_columns_degrade_to_rows ["aa", "bbb"] 2 .ColumnsAcross
    (Or.inl rfl) (by decide)⟩

/-- Claim C3 (corrected): for three or more Inline items the source
prefixes the last item with the join word directly — no space is
inserted — then joins with `", "` and prints right-trimmed. -/
theorem c3_inline_join_no_space (strs : List String) (j : String)
    (h : 3 ≤ strs.length) :
    goList strs .Inline (.strOpt j) =
      .ok (SayTrimmed (String.intercalate ", "
        (strs.dropLast ++ [j ++ strs.getLast?.getD ""]))) := by
  match strs, h with
  | a :: b :: c :: rest, _ =>
    have h1 : ((a :: b :: c :: rest).length == 1) = false := by
      simp only [List.length_cons, beq_eq_false_iff_ne, ne_eq]
      omega
    have h2 : ((a :: b :: c :: rest).length == 2) = false := by
      simp only [List.length_cons, beq_eq_false_iff_ne, ne_eq]
      omega
    have hne : (a :: b :: c :: rest) ≠ ([] : List String) := by simp
    simp only [goList, h1, h2, Bool.false_eq_true, if_false]
    rw [updateLast_eq _ _ hne]

/-- Claim C3 witness: the general statement applied to
`["red","green","blue"]` with join word `"or"`. -/
theorem c3_inline_join_no_space_witness :
    goList ["red", "green", "blue"] .Inline (.strOpt "or") =
      .ok (SayTrimmed (String.intercalate ", "
        ((["red", "green", "blue"] : List String).dropLast ++
          ["or" ++ (["red", "green", "blue"] : List String).getLast?.getD ""]))) :=
  c3_inline_join_no_space ["red", "green", "blue"] "or" (by decide)

/-- Claim C3 counterexample: `List(["red","green","blue"], Inline, "or")`
prints `"red, green, orblue"`, not the claimed `"red, green, or blue"`. -/
theorem c3_counterexample :
    goList ["red", "green", "blue"] .Inline (.strOpt "or") =
      .ok "red, green, orblue\n" ∧
    goList ["red", "green", "blue"] .Inline (.strOpt "or") ≠
      .ok "red, green, or blue\n" := by
  decide

/-- Claim C5 (corrected): an option of a type incompatible with the mode
makes List abort immediately with the option-type error — except in Inline
mode with exactly one item, where the item is printed before the option is
ever examined (see the counterexample). -/
theorem c5_option_type_abort (strs : List String) (mode : ListMode)
    (opt : ListOpt) (h : optIncompatible mode opt = true)
    (hone : mode = .Inline → strs.length ≠ 1) :
    goList strs mode opt = .error .optionType := by
  cases mode <;> cases opt <;>
    first
      | (simp [optIncompatible] at h; done)
      | (simp [goList]; done)
      | (have hb : (strs.length == 1) = false := by
           simp only [beq_eq_false_iff_ne, ne_eq]
           exact hone rfl
         simp [goList, hb])

/-- Claim C5 witness: a three-item Inline list with an int option aborts
with the option-type error. -/
theorem c5_option_type_abort_witness :
    goList ["a", "b", "c"] .Inline (.intOpt 3) = .error .optionType :=
  c5_option_type_abort ["a", "b", "c"] .Inline (.intOpt 3) (by decide)
    (fun _ => by decide)

/-- Claim C5 counterexample: a one-item Inline list with an int option is
not rejected — the item is printed and the incompatible option ignored. -/
theorem c5_counterexample :
    goList ["a"] .Inline (.intOpt 7) = .ok "a\n" := by
  decide

/-- Claim C6 (confirmed): with exactly two Inline items, the printed output
is the item at index `n-2`, the join word, the item at the same index
again — both slots render the first item — followed by a newline; this
holds for an explicit string option and for the nil option (join word
`" or "`). -/
theorem c6_inline_two_items (strs : List String) (j : String)
    (h : strs.length = 2) :
    goList strs .Inline (.strOpt j) =
      .ok (strs.getD 0 "" ++ j ++ strs.getD 0 "" ++ "\n") ∧
    goList strs .Inline .nilOpt =
      .ok (strs.getD 0 "" ++ " or " ++ strs.getD 0 "" ++ "\n") := by
  match strs, h with
  | [a, b], _ =>
    constructor <;> simp only [goList] <;>
      simp only [List.length_cons, List.length_nil] <;>
      norm_num <;>
      exact Say_newline _

/-- Claim C6 witness: the general statement applied to `["a","b"]` with the
join word `" or "`, printing `a or a` followed by a newline. -/
theorem c6_inline_two_items_witness :
    (["a", "b"] : List String).length = 2 ∧
    goList ["a", "b"] .Inline (.strOpt " or ") =
      .ok ((["a", "b"] : List String).getD 0 "" ++ " or " ++
        (["a", "b"] : List String).getD 0 "" ++ "\n") :=
  ⟨rfl, (c6_inline_two_items ["a", "b"] " or " rfl).1⟩

/-- Claim C1 counterexample: with no failure callback configured, a read
failure makes Ask return nil with nothing written, and Confirm then panics
indexing the first byte of the empty result string — it neither returns
false nor merely swallows the failure. -/
theorem c1_counterexample :
    Confirm "Continue? " true none [.fail] = .crash .indexOutOfRange ∧
    Confirm "Continue? " true none [.fail] ≠ .val false := by
  decide

/-- Claim C1 (corrected): when the underlying Ask call reports its failure
through the `q.Panic` callback — which exists only if the caller's
configure installed one — Confirm returns false; with no callback
installed a failed Ask instead crashes Confirm (see the counterexample). -/
theorem c1_confirm_false_on_reported_failure (question : String) (yes : Bool)
    (cfg : Option (Question → Question)) (input : List ReadEv)
    (h : (Ask .ptrString question (some (confirmCfg yes cfg)) input).reported ≠ []) :
    Confirm question yes cfg input = ConfirmOut.val false := by
  have hc := Ask_ptrString_crashed_none question (some (confirmCfg yes cfg)) input
  simp only [Confirm]
  rw [hc]
  cases hh : (Ask .ptrString question (some (confirmCfg yes cfg)) input).reported with
  | nil => exact absurd hh h
  | cons e l => rfl

/-- Claim C1 witness: with a caller-installed failure callback, a read
failure is reported and Confirm returns false. -/
theorem c1_confirm_false_on_reported_failure_witness :
    (Ask .ptrString "Continue? "
        (some (confirmCfg true (some (fun q => { q with hasPanic := true }))))
        [.fail]).reported ≠ [] ∧
    Confirm "Continue? " true (some (fun q => { q with hasPanic := true }))
        [.fail] = ConfirmOut.val false :=
  ⟨by decide,
   c1_confirm_false_on_reported_failure "Continue? " true
     (some (fun q => { q with hasPanic := true })) [.fail] (by decide)⟩

/-- Claim C2 (code_bug): Ask never returns a non-nil error — its named
error return is never assigned, so every return site yields nil. A
non-pointer destination even crashes the call: the recover handler
dereferences the still-nil question pointer. A read failure returns nil
with no error reported anywhere when no callback is installed. -/
theorem c2_ask_never_returns_error :
    (∀ (d : Dest) (msg : String) (cfg : Option (Question → Question))
        (input : List ReadEv), (Ask d msg cfg input).ret = none) ∧
    (Ask .notPtr "Pick a number " none []).crashed = some .nilDeref ∧
    (Ask .ptrString "Name? " none [.fail]).ret = none ∧
    (Ask .ptrString "Name? " none [.fail]).reported = [] :=
  ⟨Ask_ret_none, by decide, by decide, by decide⟩

/-- Claim C4 (corrected): when the response parses but fails to narrow into
the destination, the failure is reported (error message printed, prompt
swapped to the on-error response) and the interactive loop retries on the
remaining input — the outcome of the call is the outcome of that retry,
not an abort. -/
theorem c4_narrow_failure_retries (d : Dest) (q q' : Question)
    (prompt resp : String) (e : ErrKind) (input rest : List ReadEv)
    (h1 : readLine input = .ok (resp, rest))
    (h2 : parse q resp = .ok q')
    (h3 : setDest q' d = .error e) :
    (askLoop d q prompt input).written =
      (askLoop d q' (match q'.onError with | some t => t | none => prompt)
        rest).written ∧
    (askLoop d q prompt input).ret =
      (askLoop d q' (match q'.onError with | some t => t | none => prompt)
        rest).ret ∧
    (askLoop d q prompt input).output =
      Say (prompt ++ defaultString q (suffixSpace prompt)) ::
        ("Error: " ++ errText e ++ "\n") ::
        (askLoop d q' (match q'.onError with | some t => t | none => prompt)
          rest).output := by
  have hlt := readLine_consumes _ _ _ h1
  have hfuel : askAux d input.length q'
      (match q'.onError with | some t => t | none => prompt) rest =
      askLoop d q' (match q'.onError with | some t => t | none => prompt) rest :=
    askAux_fuel d input.length (rest.length + 1) q' _ rest (by omega) (by omega)
  have hL : askLoop d q prompt input =
      { askAux d input.length q'
          (match q'.onError with | some t => t | none => prompt) rest with
        output := Say (prompt ++ defaultString q (suffixSpace prompt)) ::
          ("Error: " ++ errText e ++ "\n") ::
          (askAux d input.length q'
            (match q'.onError with | some t => t | none => prompt) rest).output } := by
    unfold askLoop
    simp only [askAux, h1, h2, h3]
  refine ⟨?_, ?_, ?_⟩ <;> rw [hL] <;> simp [hfuel]

/-- Claim C4 witness: the general statement applied to an 8-bit unsigned
destination and the out-of-range response `300`. -/
theorem c4_narrow_failure_retries_witness :
    (askLoop (.ptrUint 8) { qtype := GoType.Uint } "N? "
        [.line "300" false]).written =
      (askLoop (.ptrUint 8)
        { qtype := GoType.Uint, val := some (.uintV 300) } "N? " []).written :=
  (c4_narrow_failure_retries (.ptrUint 8) { qtype := GoType.Uint }
    { qtype := GoType.Uint, val := some (.uintV 300) } "N? " "300"
    .narrowFail [.line "300" false] [] (by decide) (by decide) (by decide)).1

/-- Claim C4 counterexample: after the narrowing failure on `300`, the same
Ask call goes on to prompt again and accept the next response `5` — the
call is not aborted. -/
theorem c4_counterexample :
    (Ask (.ptrUint 8) "N? " none
        [.line "300" false, .line "5" false]).written = some (.uintV 5) ∧
    (Ask (.ptrUint 8) "N? " none
        [.line "300" false, .line "5" false]).output =
      ["N? ", "Error: value does not fit the destination type\n", "N? "] := by
  decide
